import Mathlib

/-!
Verification of the media-relay-and-metadata-fanout pipeline of
`src/main.py` (an Instagram-style FastAPI backend that relays uploads to
Telegram and stores metadata in Firebase).

The embedding is shallow: each Python function of `main.py` that the claims
touch is translated to an executable Lean definition of the same name.
External effects (the Telegram HTTP call, the Firebase REST writes, the
random bot choice, generated UUIDs) are supplied by an explicit environment
`Env`; each handler returns its HTTP-level result together with the ordered
trace of externally visible operations it performed successfully
(file reads, Telegram upload calls, Firebase writes that went through).
A Firebase operation whose environment flag is `false` raises
`FirebaseError`, so it does not appear in the trace and no later operation
runs — exactly the sequential, non-transactional behaviour of the source.
-/

namespace InstaClone

/-! ## Text extraction (`extract_hashtags` / `extract_mentions`, main.py:706-712)

The source uses `re.findall(r'#(\w+)', text)` and `re.findall(r'@(\w+)', text)`:
a single left-to-right scan producing the non-overlapping maximal matches of
"marker character followed by one or more word characters", in order of
appearance, without deduplication.  `scanAux` is that scan as a structural
automaton: state `none` means "looking for the marker", state `some acc`
means "just saw the marker, word characters accumulated so far (reversed) in
`acc`".  Word characters are modelled over the ASCII fragment of Python's
`\w` ([A-Za-z0-9_]). -/

def isWordChar (c : Char) : Bool :=
  c.isAlphanum || c = '_'

def scanAux (marker : Char) : List Char → Option (List Char) → List String
  | [], none => []
  | [], some acc => if acc.isEmpty then [] else [String.mk acc.reverse]
  | c :: rest, none =>
      if c = marker then scanAux marker rest (some [])
      else scanAux marker rest none
  | c :: rest, some acc =>
      if isWordChar c then scanAux marker rest (some (c :: acc))
      else
        if acc.isEmpty then
          -- the marker was not followed by a word character: no match here;
          -- re-examine `c` in the searching state
          if c = marker then scanAux marker rest (some [])
          else scanAux marker rest none
        else
          -- maximal run ended: emit the match, resume scanning at `c`
          String.mk acc.reverse ::
            (if c = marker then scanAux marker rest (some [])
             else scanAux marker rest none)

/-- `extract_hashtags` (main.py:706): `re.findall(r'#(\w+)', text)`. -/
def extract_hashtags (text : String) : List String :=
  scanAux '#' text.data none

/-- `extract_mentions` (main.py:710): `re.findall(r'@(\w+)', text)`. -/
def extract_mentions (text : String) : List String :=
  scanAux '@' text.data none

/-! ## Errors and results

`PyErr` collects the exceptions that can propagate inside a handler body:
the two custom error classes of main.py:38-42, FastAPI's `HTTPException`
(raised with a status code and detail), and the generic Python runtime
errors that matter here (`NameError` from the undefined `background_tasks`
name in the engagement handlers, `IndexError` from `photo[-1]` on an empty
list). -/

inductive PyErr where
  | tgError (msg : String)        -- TelegramUploadError
  | fbError (msg : String)        -- FirebaseError
  | httpExc (code : Nat) (detail : String)  -- HTTPException raised in the body
  | nameError (nm : String)       -- NameError: name ... is not defined
  | indexError                    -- IndexError: list index out of range
deriving DecidableEq, Repr

/-- The HTTP-level outcome a client observes from a handler: either the
success payload or an `HTTPException` with status code and detail. -/
inductive HResult (α : Type) where
  | ok (a : α)
  | httpError (code : Nat) (detail : String)
deriving DecidableEq, Repr

/-! ## Telegram relay client (`upload_to_telegram`, main.py:569-610) -/

/-- The (file_unique_id, file_id) pair main.py extracts from a Telegram
photo/document/video object. -/
structure TgFile where
  file_unique_id : String
  file_id : String
deriving DecidableEq, Repr

/-- The `result` object of a Telegram `sendPhoto`/`sendDocument` response:
at most one of `photo` (an array of size variants; main.py takes the last),
`document`, `video` is present. -/
structure TgResult where
  photo : Option (List TgFile)
  document : Option TgFile
  video : Option TgFile
deriving DecidableEq, Repr

/-- A decoded Telegram API response body: the `ok` flag and the `result`. -/
structure TgResponse where
  ok : Bool
  result : TgResult
deriving DecidableEq, Repr

/-- Outcome of the one `requests.post` call: `transportError` covers both a
transport-level failure and a non-success HTTP status (whose
`raise_for_status` also raises `requests.exceptions.RequestException`);
otherwise the decoded response body. -/
inductive HttpOutcome where
  | transportError
  | response (r : TgResponse)
deriving DecidableEq, Repr

/-- Python's `str.strip()`: drop leading and trailing whitespace. -/
def pyStrip (s : String) : String :=
  String.mk
    (((s.data.dropWhile Char.isWhitespace).reverse.dropWhile
        Char.isWhitespace).reverse)

/-- Python's `s.startswith(p)`. -/
def pyStartsWith (s p : String) : Bool :=
  p.data.isPrefixOf s.data

/-- `get_random_bot_token` (main.py:84-89).  The source filters
`TELEGRAM_BOT_TOKENS` to the tokens whose `strip()` is non-empty, raises
`TelegramUploadError` when none remain, and otherwise returns
`random.choice` of them; the random draw is modelled by the index `pick`
taken modulo the list length. -/
def get_random_bot_token (tokens : List String) (pick : Nat) :
    Except PyErr String :=
  let available := (tokens.filter (fun t => pyStrip t ≠ "")).map pyStrip
  if available.isEmpty then
    .error (.tgError "No Telegram bot tokens available")
  else
    .ok (available.getD (pick % available.length) "")

/-- `upload_to_telegram` (main.py:569-610).  Chooses a bot token (raising if
none is configured, with no request made), performs exactly one
`requests.post` (to `sendPhoto` for `image/*` content types, `sendDocument`
otherwise — the branch only changes the URL and form field, not the result
handling, so `filename`/`content_type` do not affect the outcome), and
decodes the response: a transport error raises
`TelegramUploadError("Network error")`; `ok` false raises
`TelegramUploadError("Telegram API error")`; otherwise the file info is
taken from `photo[-1]`, `document` or `video`, and if none is present
`TelegramUploadError("No file found in Telegram response")` is raised.
The second component counts the HTTP requests performed (0 or 1): there is
no retry anywhere. -/
def upload_to_telegram (tokens : List String) (pick : Nat)
    (outcome : HttpOutcome) (_filename _content_type : String) :
    Except PyErr TgFile × Nat :=
  match get_random_bot_token tokens pick with
  | .error e => (.error e, 0)
  | .ok _bot =>
    match outcome with
    | .transportError => (.error (.tgError "Network error"), 1)
    | .response r =>
      if !r.ok then (.error (.tgError "Telegram API error"), 1)
      else
        match r.result.photo with
        | some photos =>
          match photos.getLast? with
          | some p => (.ok p, 1)
          | none => (.error .indexError, 1)   -- photo[-1] on an empty array
        | none =>
          match r.result.document with
          | some d => (.ok d, 1)
          | none =>
            match r.result.video with
            | some v => (.ok v, 1)
            | none =>
              (.error (.tgError "No file found in Telegram response"), 1)

/-! ## Documents written to Firebase -/

/-- A field value inside a Firebase `PATCH` payload.  Only the shapes the
claims inspect are distinguished; everything else the handlers patch is a
string anyway. -/
inductive FVal where
  | str (s : String)
  | int (n : Int)
deriving DecidableEq, Repr

/-- A media item of a post document (main.py:226-238).  `media_id` is a
fresh UUID, `thumbnail_url` is `upload_result.get("thumbnail_url", "")`,
which is always `""` because `upload_to_telegram` never puts that key in its
result; `width`/`height` are the hard-coded 1080/1350; `duration` is always
`None` and is omitted. -/
structure MediaItem where
  media_id : String
  file_unique_id : String
  media_type : String        -- "image" if content_type starts with image/, else "video"
  file_type : String
  file_size : Nat
  filename : String
  width : Nat
  height : Nat
  thumbnail_url : String
  order_index : Nat
deriving DecidableEq, Repr

/-- The post document built in `upload_post` (main.py:246-290), flattened:
the nested `user_info` / `content` / `discovery` groups are inlined, and the
constant-valued `engagement` / `timestamps` / `settings` groups are omitted
(no claim inspects them). -/
structure PostDoc where
  post_id : String
  user_id : String
  username : String
  profile_picture : String
  media : List MediaItem
  caption : String
  alt_text : String
  hashtags : List String
  mentions : List String
deriving DecidableEq, Repr

/-- An externally visible operation performed by a handler, in order.
Firebase operations appear only when they succeeded (a failed REST call
persists nothing and raises `FirebaseError`); `tgUpload i` records that
`upload_to_telegram` was invoked for the file at batch index `i`;
`readFile i` records `await file.read()` for that file. -/
inductive Action where
  | readFile (idx : Nat)
  | tgUpload (idx : Nat)
  | setPost (path : String) (doc : PostDoc)        -- set_data of a post document
  | setDoc (path : String)                          -- set_data of any other document
  | pushDoc (path : String)                         -- push_data
  | updateDoc (path : String) (fields : List (String × FVal))  -- update_data
deriving DecidableEq, Repr

/-- The environment supplying every external effect:
`tokens` is `TELEGRAM_BOT_TOKENS` already split on commas; `pick i` the
`random.choice` draw and `http i` the network outcome for the `i`-th
Telegram upload of the request; `setOk`/`pushOk`/`updateOk` tell whether the
Firebase REST call on a given path succeeds; the remaining fields are the
`uuid.uuid4()` draws. -/
structure Env where
  tokens : List String
  pick : Nat → Nat
  http : Nat → HttpOutcome
  setOk : String → Bool
  pushOk : String → Bool
  updateOk : String → Bool
  postId : String
  storyId : String
  likeId : String
  commentId : String
  followId : String
  mediaUuid : Nat → String

/-- `store_post_data` (main.py:612-636): three independent sequential
Firebase writes — the main post record at `posts/{post_id}`, the per-user
pointer at `user_posts/{user_id}/{post_id}`, the timeline pointer pushed to
`timeline`.  A failing write raises `FirebaseError` (re-raised as
`Failed to store post`) and the writes already performed stay in place;
nothing is rolled back. -/
def store_post_data (env : Env) (post_id : String) (post_data : PostDoc)
    (user_id : String) : Except PyErr Unit × List Action :=
  let p1 := "posts/" ++ post_id
  if env.setOk p1 then
    let p2 := "user_posts/" ++ user_id ++ "/" ++ post_id
    if env.setOk p2 then
      if env.pushOk "timeline" then
        (.ok (), [.setPost p1 post_data, .setDoc p2, .pushDoc "timeline"])
      else
        (.error (.fbError "Failed to store post"),
         [.setPost p1 post_data, .setDoc p2])
    else
      (.error (.fbError "Failed to store post"), [.setPost p1 post_data])
  else
    (.error (.fbError "Failed to store post"), [])

/-- `update_user_counts` (main.py:638-643): the Firebase patch it issues.
The `delta` argument is ignored by the source — the patch value is the
literal string `"INCREMENT"`, not an arithmetic update.  (The surrounding
try/except that swallows a failure is part of the background-task runner
and irrelevant to the payload.) -/
def update_user_counts (user_id : String) (count_type : String)
    (_delta : Int) : Action :=
  .updateDoc ("users/" ++ user_id ++ "/counts") [(count_type, FVal.str "INCREMENT")]

/-! ## `/upload-post/` (main.py:167-316) -/

/-- An incoming `UploadFile`: its metadata and the byte length its
`read()` returns (the bytes themselves are opaque to every check). -/
structure UFile where
  filename : String
  content_type : String
  size : Nat
deriving DecidableEq, Repr

/-- The allow-list of main.py:208. -/
def allowed_types_post : List String :=
  ["image/jpeg", "image/png", "image/gif", "video/mp4", "image/webp"]

/-- The 10 MB ceiling `10 * 1024 * 1024` of main.py:218. -/
def mib10 : Nat := 10 * 1024 * 1024

/-- The success payload of `/upload-post/` the claims inspect
(`post_id` and `media_count` of main.py:300-306). -/
structure PostResp where
  post_id : String
  media_count : Nat
deriving DecidableEq, Repr

/-- The media item built at main.py:226-238 for the file at `enumerate`
index `i` whose Telegram upload returned `info`. -/
def mkMediaItem (env : Env) (i : Nat) (f : UFile) (info : TgFile) :
    MediaItem :=
  { media_id := env.mediaUuid i
    file_unique_id := info.file_unique_id
    media_type :=
      if pyStartsWith f.content_type "image/" then "image" else "video"
    file_type := f.content_type
    file_size := f.size
    filename := f.filename
    width := 1080
    height := 1350
    thumbnail_url := ""
    order_index := i }

/-- The `for order_index, file in enumerate(files)` loop of
main.py:206-240, with `i` the running `enumerate` index.  Per file: if the
content type is not allowed, the file is skipped (`continue`) — it is not
even read; otherwise the payload is read and, if larger than 10 MB, the
file is skipped; otherwise `upload_to_telegram` is called and its failure
aborts the whole loop by propagating the exception, while success appends a
`MediaItem` carrying the `enumerate` index as `order_index`. -/
def processPostFiles (env : Env) : Nat → List UFile →
    Except PyErr (List MediaItem) × List Action
  | _, [] => (.ok [], [])
  | i, f :: rest =>
    if f.content_type ∈ allowed_types_post then
      if f.size > mib10 then
        -- read, then "Skipping file: File too large"
        ((processPostFiles env (i + 1) rest).1,
         .readFile i :: (processPostFiles env (i + 1) rest).2)
      else
        match upload_to_telegram env.tokens (env.pick i) (env.http i)
            f.filename f.content_type with
        | (.error e, _) => (.error e, [.readFile i, .tgUpload i])
        | (.ok info, _) =>
          (match (processPostFiles env (i + 1) rest).1 with
           | .ok ms => .ok (mkMediaItem env i f info :: ms)
           | .error e => .error e,
           .readFile i :: .tgUpload i :: (processPostFiles env (i + 1) rest).2)
    else
      -- "Skipping file: Invalid type", continue
      processPostFiles env (i + 1) rest

/-- How the `except` clauses of main.py:308-316 map an exception escaping
the `try` body to a response: `TelegramUploadError` → 500
"Failed to upload to Telegram", `FirebaseError` → 500
"Failed to store post", and everything else — including an
`HTTPException` raised inside the `try`, whose 400 is thereby swallowed —
is caught by `except Exception` → 500 "Internal server error". -/
def postExcept (e : PyErr) : HResult PostResp :=
  match e with
  | .tgError _ => .httpError 500 "Failed to upload to Telegram"
  | .fbError _ => .httpError 500 "Failed to store post"
  | _ => .httpError 500 "Internal server error"

/-- `upload_post` (main.py:167-316).  Outside the `try`: an empty (or
absent) file list → 400 "No files provided"; more than 10 files → 400
"Maximum 10 files allowed per post", in both cases before anything is read
or uploaded.  Inside the `try`: the per-file loop builds `media_array`; if
it ends up empty, the `HTTPException(400, "No valid files to upload")` of
main.py:243 is raised — and converted to 500 by the blanket
`except Exception`; otherwise the post document is built (hashtags and
mentions extracted from the caption) and `store_post_data` fans it out.
The response carries `media_count = len(media_array)`. -/
def upload_post (env : Env) (user_id username profile_picture caption
    alt_text : String) (files : List UFile) :
    HResult PostResp × List Action :=
  if files.isEmpty then
    (.httpError 400 "No files provided", [])
  else if files.length > 10 then
    (.httpError 400 "Maximum 10 files allowed per post", [])
  else
    match processPostFiles env 0 files with
    | (.error e, acts) => (postExcept e, acts)
    | (.ok media_array, acts) =>
      if media_array.isEmpty then
        (postExcept (.httpExc 400 "No valid files to upload"), acts)
      else
        let post_data : PostDoc :=
          { post_id := env.postId
            user_id := user_id
            username := username
            profile_picture := profile_picture
            media := media_array
            caption := caption
            alt_text :=
              if alt_text = "" then "Post by " ++ username else alt_text
            hashtags := extract_hashtags caption
            mentions := extract_mentions caption }
        match store_post_data env env.postId post_data user_id with
        | (.error e, sacts) => (postExcept e, acts ++ sacts)
        | (.ok _, sacts) =>
          (.ok { post_id := env.postId, media_count := media_array.length },
           acts ++ sacts)

/-! ## `/upload-story/` (main.py:320-406) -/

/-- The story allow-list of main.py:334. -/
def allowed_types_story : List String :=
  ["image/jpeg", "image/png", "video/mp4"]

/-- The success payload of `/upload-story/` the claims inspect. -/
structure StoryResp where
  story_id : String
deriving DecidableEq, Repr

/-- `upload_story` (main.py:320-406).  The whole body sits inside one
`try` whose only handler is `except Exception` → 500
"Failed to upload story"; in particular the
`HTTPException(400, "File type not allowed for stories")` raised by the
content-type check is itself caught there and surfaces as that 500.  After
the type check the payload is read and uploaded — there is no size check in
this handler — and the story document is written to
`stories/{user_id}/{story_id}`. -/
def upload_story (env : Env) (user_id _username _profile_picture : String)
    (file : UFile) : HResult StoryResp × List Action :=
  let body : Except PyErr StoryResp × List Action :=
    if file.content_type ∈ allowed_types_story then
      match upload_to_telegram env.tokens (env.pick 0) (env.http 0)
          file.filename file.content_type with
      | (.error e, _) => (.error e, [.readFile 0, .tgUpload 0])
      | (.ok _info, _) =>
        let p := "stories/" ++ user_id ++ "/" ++ env.storyId
        if env.setOk p then
          (.ok { story_id := env.storyId },
           [.readFile 0, .tgUpload 0, .setDoc p])
        else
          (.error (.fbError "Failed to write to Firebase"),
           [.readFile 0, .tgUpload 0])
    else
      (.error (.httpExc 400 "File type not allowed for stories"), [])
  match body with
  | (.ok resp, acts) => (.ok resp, acts)
  | (.error _, acts) => (.httpError 500 "Failed to upload story", acts)

/-! ## Engagement handlers (main.py:410-565)

All three handlers reference the name `background_tasks` without declaring
it as a parameter (unlike `upload_post`); no such module-level name exists,
so after their Firebase writes succeed they raise
`NameError: name 'background_tasks' is not defined`, which their
`except Exception` converts to the handler's 500 response.  The writes
already performed are not undone. -/

/-- `like_post` (main.py:410-453): stores the like document at
`likes/{post_id}/{like_id}`, patches
`posts/{post_id}/engagement` with `{"like_count": "INCREMENT"}`, then hits
the undefined `background_tasks` (main.py:443); every path ends in the
`except Exception` response 500 "Failed to like post". -/
def like_post (env : Env) (_user_id _username _profile_picture
    post_id _like_type : String) : HResult String × List Action :=
  let body : Except PyErr String × List Action :=
    let p1 := "likes/" ++ post_id ++ "/" ++ env.likeId
    if env.setOk p1 then
      let p2 := "posts/" ++ post_id ++ "/engagement"
      if env.updateOk p2 then
        -- background_tasks.add_task(create_activity, ...) → NameError
        (.error (.nameError "background_tasks"),
         [.setDoc p1, .updateDoc p2 [("like_count", FVal.str "INCREMENT")]])
      else
        (.error (.fbError "Failed to update Firebase"), [.setDoc p1])
    else
      (.error (.fbError "Failed to write to Firebase"), [])
  match body with
  | (.ok r, acts) => (.ok r, acts)
  | (.error _, acts) => (.httpError 500 "Failed to like post", acts)

/-- `add_comment` (main.py:455-518): stores the comment document at
`comments/{post_id}/{comment_id}`, patches `posts/{post_id}/engagement`
with `{"comment_count": "INCREMENT"}`, then hits the undefined
`background_tasks` (main.py:508); every path ends in 500
"Failed to add comment". -/
def add_comment (env : Env) (_user_id _username _profile_picture
    post_id _text : String) : HResult String × List Action :=
  let body : Except PyErr String × List Action :=
    let p1 := "comments/" ++ post_id ++ "/" ++ env.commentId
    if env.setOk p1 then
      let p2 := "posts/" ++ post_id ++ "/engagement"
      if env.updateOk p2 then
        -- background_tasks.add_task(create_activity, ...) → NameError
        (.error (.nameError "background_tasks"),
         [.setDoc p1, .updateDoc p2 [("comment_count", FVal.str "INCREMENT")]])
      else
        (.error (.fbError "Failed to update Firebase"), [.setDoc p1])
    else
      (.error (.fbError "Failed to write to Firebase"), [])
  match body with
  | (.ok r, acts) => (.ok r, acts)
  | (.error _, acts) => (.httpError 500 "Failed to add comment", acts)

/-- `follow_user` (main.py:520-565): stores the follow document at
`follows/{follower_id}_{following_id}`, then hits the undefined
`background_tasks` (main.py:551); every path ends in 500
"Failed to follow user". -/
def follow_user (env : Env) (follower_id _follower_username
    following_id : String) : HResult String × List Action :=
  let body : Except PyErr String × List Action :=
    let p1 := "follows/" ++ follower_id ++ "_" ++ following_id
    if env.setOk p1 then
      -- background_tasks.add_task(update_user_counts, ...) → NameError
      (.error (.nameError "background_tasks"), [.setDoc p1])
    else
      (.error (.fbError "Failed to write to Firebase"), [])
  match body with
  | (.ok r, acts) => (.ok r, acts)
  | (.error _, acts) => (.httpError 500 "Failed to follow user", acts)

/-! ## Concrete environments and inputs used by witnesses -/

/-- A successful Telegram response: one photo size variant. -/
def goodResp : TgResponse :=
  { ok := true
    result :=
      { photo := some [{ file_unique_id := "fu-1", file_id := "fi-1" }]
        document := none
        video := none } }

/-- A benign environment: one configured bot, every Telegram call answers
`goodResp`, every Firebase call succeeds, fixed UUID draws. -/
def env0 : Env :=
  { tokens := ["bot-token-1"]
    pick := fun _ => 0
    http := fun _ => .response goodResp
    setOk := fun _ => true
    pushOk := fun _ => true
    updateOk := fun _ => true
    postId := "post-1"
    storyId := "story-1"
    likeId := "like-1"
    commentId := "comment-1"
    followId := "follow-1"
    mediaUuid := fun _ => "media-uuid" }

/-- `env0` with the timeline push failing. -/
def envPushFail : Env := { env0 with pushOk := fun _ => false }

/-- A well-formed small JPEG file. -/
def okFile : UFile :=
  { filename := "a.jpg", content_type := "image/jpeg", size := 1024 }

/-- A file whose content type fails the allow-lists. -/
def badTypeFile : UFile :=
  { filename := "doc.txt", content_type := "text/plain", size := 10 }

/-- A well-formed file whose payload exceeds the 10 MB ceiling. -/
def bigFile : UFile :=
  { filename := "big.jpg", content_type := "image/jpeg"
    size := 11 * 1024 * 1024 }

/-! ## Claims -/

/-- **C5**: `extract_hashtags` and `extract_mentions` perform a single
left-to-right scan for a marker (`#` / `@`) followed by one or more word
characters, returning matches in order of appearance, without
deduplication or case-folding, excluding trailing punctuation; in
particular `extract_hashtags "hello #World #world2!" = ["World", "world2"]`
and `extract_mentions "@Alice says hi to @bob" = ["Alice", "bob"]` (the
third conjunct exhibits a duplicate being kept). -/
theorem extract_hashtags_mentions_spec :
    extract_hashtags "hello #World #world2!" = ["World", "world2"] ∧
    extract_mentions "@Alice says hi to @bob" = ["Alice", "bob"] ∧
    extract_hashtags "#Tag and #Tag" = ["Tag", "Tag"] := by
  refine ⟨?_, ?_, ?_⟩ <;> rfl

/-- **C3** (code bug): for a story upload whose content type is outside the
story allow-list, main.py:336 deliberately raises
`HTTPException(400, "File type not allowed for stories")`, but it does so
inside the handler's `try`, whose blanket `except Exception`
(main.py:404-406) catches it and re-raises 500 "Failed to upload story".
So the rejection does happen before any upload call (the trace is empty),
but the client observes HTTP 500, not the 400 the spec states. -/
theorem upload_story_bad_type_returns_500 :
    upload_story env0 "u1" "alice" "pic" badTypeFile =
      (.httpError 500 "Failed to upload story", []) := by
  rfl

/-- **C10**: `/upload-post/` rejects every request with more than 10 files
with HTTP 400 "Maximum 10 files allowed per post" (main.py:186-187), raised
outside the `try` and before the per-file loop, so nothing is read or
uploaded: the trace is empty. -/
theorem upload_post_file_count_limit (env : Env)
    (uid un pp cap at_ : String) (files : List UFile)
    (h : files.length > 10) :
    upload_post env uid un pp cap at_ files =
      (.httpError 400 "Maximum 10 files allowed per post", []) := by
  have hne : files.isEmpty = false := by
    cases files with
    | nil => simp at h
    | cons a l => rfl
  simp [upload_post, hne, h]

/-- Witness for C10 at a concrete 11-file request. -/
theorem upload_post_file_count_limit_witness :
    upload_post env0 "u1" "alice" "pic" "" "" (List.replicate 11 okFile) =
      (.httpError 400 "Maximum 10 files allowed per post", []) :=
  upload_post_file_count_limit env0 "u1" "alice" "pic" "" ""
    (List.replicate 11 okFile) (by decide)

/-- **C4**: the like / comment / follow handlers evaluate the undefined
name `background_tasks` right after their Firebase writes (main.py:443,
508, 551), so when those writes succeed the resulting `NameError` is caught
by `except Exception` and the handler answers HTTP 500; the records and
counter patches already written stay in the trace (no rollback), and — the
last three conjuncts, over every environment — none of the three endpoints
can ever return its success response. -/
theorem engagement_handlers_never_succeed (env : Env)
    (uid un pp pid lt txt fid fn tid : String)
    (hset : ∀ p, env.setOk p = true) (hupd : ∀ p, env.updateOk p = true) :
    like_post env uid un pp pid lt =
      (.httpError 500 "Failed to like post",
       [.setDoc ("likes/" ++ pid ++ "/" ++ env.likeId),
        .updateDoc ("posts/" ++ pid ++ "/engagement")
          [("like_count", FVal.str "INCREMENT")]]) ∧
    add_comment env uid un pp pid txt =
      (.httpError 500 "Failed to add comment",
       [.setDoc ("comments/" ++ pid ++ "/" ++ env.commentId),
        .updateDoc ("posts/" ++ pid ++ "/engagement")
          [("comment_count", FVal.str "INCREMENT")]]) ∧
    follow_user env fid fn tid =
      (.httpError 500 "Failed to follow user",
       [.setDoc ("follows/" ++ fid ++ "_" ++ tid)]) ∧
    (∀ (e : Env) (a b c d g : String) (r : String),
      (like_post e a b c d g).1 ≠ .ok r) ∧
    (∀ (e : Env) (a b c d g : String) (r : String),
      (add_comment e a b c d g).1 ≠ .ok r) ∧
    (∀ (e : Env) (a b c : String) (r : String),
      (follow_user e a b c).1 ≠ .ok r) := by
  refine ⟨?_, ?_, ?_, ?_, ?_, ?_⟩
  · simp [like_post, hset, hupd]
  · simp [add_comment, hset, hupd]
  · simp [follow_user, hset]
  · intro e a b c d g r
    cases h1 : e.setOk ("likes/" ++ d ++ "/" ++ e.likeId) <;>
      cases h2 : e.updateOk ("posts/" ++ d ++ "/engagement") <;>
      simp [like_post, h1, h2]
  · intro e a b c d g r
    cases h1 : e.setOk ("comments/" ++ d ++ "/" ++ e.commentId) <;>
      cases h2 : e.updateOk ("posts/" ++ d ++ "/engagement") <;>
      simp [add_comment, h1, h2]
  · intro e a b c r
    cases h1 : e.setOk ("follows/" ++ a ++ "_" ++ c) <;>
      simp [follow_user, h1]

/-- Witness for C4 at the benign environment. -/
theorem engagement_handlers_never_succeed_witness :
    like_post env0 "u1" "alice" "pic" "p1" "like" =
      (.httpError 500 "Failed to like post",
       [.setDoc "likes/p1/like-1",
        .updateDoc "posts/p1/engagement"
          [("like_count", FVal.str "INCREMENT")]]) ∧
    (follow_user env0 "u1" "alice" "u2").1 ≠ .ok "ok" := by
  have h := engagement_handlers_never_succeed env0
    "u1" "alice" "pic" "p1" "like" "nice" "u1" "alice" "u2"
    (fun _ => rfl) (fun _ => rfl)
  exact ⟨h.1, h.2.2.2.2.2 env0 "u1" "alice" "u2" "ok"⟩

/-- **C6**: `store_post_data` issues its three writes sequentially — post
record, per-user index entry, timeline pointer, in that order — with no
transaction: if all succeed the trace holds all three; if the timeline push
fails, the operation raises the store error while the first two writes
remain; if the per-user write fails, the post record remains. -/
theorem store_post_data_no_rollback (env : Env) (pid uid : String)
    (post : PostDoc) :
    (env.setOk ("posts/" ++ pid) = true →
      env.setOk ("user_posts/" ++ uid ++ "/" ++ pid) = true →
      env.pushOk "timeline" = true →
      store_post_data env pid post uid =
        (.ok (),
         [.setPost ("posts/" ++ pid) post,
          .setDoc ("user_posts/" ++ uid ++ "/" ++ pid),
          .pushDoc "timeline"])) ∧
    (env.setOk ("posts/" ++ pid) = true →
      env.setOk ("user_posts/" ++ uid ++ "/" ++ pid) = true →
      env.pushOk "timeline" = false →
      store_post_data env pid post uid =
        (.error (.fbError "Failed to store post"),
         [.setPost ("posts/" ++ pid) post,
          .setDoc ("user_posts/" ++ uid ++ "/" ++ pid)])) ∧
    (env.setOk ("posts/" ++ pid) = true →
      env.setOk ("user_posts/" ++ uid ++ "/" ++ pid) = false →
      store_post_data env pid post uid =
        (.error (.fbError "Failed to store post"),
         [.setPost ("posts/" ++ pid) post])) := by
  refine ⟨?_, ?_, ?_⟩ <;> intro h1 h2 <;>
    first
      | (intro h3; simp [store_post_data, h1, h2, h3])
      | simp [store_post_data, h1, h2]

/-- Witness for C6: the timeline push fails, the two earlier writes remain
and the store error is raised. -/
theorem store_post_data_no_rollback_witness :
    store_post_data envPushFail "p1"
        { post_id := "p1", user_id := "u1", username := "alice"
          profile_picture := "pic", media := [], caption := ""
          alt_text := "", hashtags := [], mentions := [] } "u1" =
      (.error (.fbError "Failed to store post"),
       [.setPost "posts/p1"
          { post_id := "p1", user_id := "u1", username := "alice"
            profile_picture := "pic", media := [], caption := ""
            alt_text := "", hashtags := [], mentions := [] },
        .setDoc "user_posts/u1/p1"]) :=
  (store_post_data_no_rollback envPushFail "p1" "u1"
    { post_id := "p1", user_id := "u1", username := "alice"
      profile_picture := "pic", media := [], caption := ""
      alt_text := "", hashtags := [], mentions := [] }).2.1 rfl rfl rfl

/-- **C7**: the counter "increments" are sentinel writes: the patch that
`like_post` sends for `like_count`, the one `add_comment` sends for
`comment_count`, and the one `update_user_counts` sends for any
`count_type` all carry the literal string `"INCREMENT"` as the field value
— `update_user_counts` even ignores its `delta` argument entirely. -/
theorem counter_increment_sentinel (env : Env)
    (uid un pp pid lt txt ct : String) (delta : Int)
    (hset : ∀ p, env.setOk p = true) (hupd : ∀ p, env.updateOk p = true) :
    Action.updateDoc ("posts/" ++ pid ++ "/engagement")
        [("like_count", FVal.str "INCREMENT")] ∈
      (like_post env uid un pp pid lt).2 ∧
    Action.updateDoc ("posts/" ++ pid ++ "/engagement")
        [("comment_count", FVal.str "INCREMENT")] ∈
      (add_comment env uid un pp pid txt).2 ∧
    update_user_counts uid ct delta =
      .updateDoc ("users/" ++ uid ++ "/counts")
        [(ct, FVal.str "INCREMENT")] := by
  refine ⟨?_, ?_, rfl⟩
  · simp [like_post, hset, hupd]
  · simp [add_comment, hset, hupd]

/-- Witness for C7, with `delta = 5` ignored by the sentinel patch. -/
theorem counter_increment_sentinel_witness :
    Action.updateDoc "posts/p1/engagement"
        [("like_count", FVal.str "INCREMENT")] ∈
      (like_post env0 "u1" "alice" "pic" "p1" "like").2 ∧
    update_user_counts "u1" "followers" 5 =
      .updateDoc "users/u1/counts" [("followers", FVal.str "INCREMENT")] := by
  have h := counter_increment_sentinel env0 "u1" "alice" "pic" "p1" "like"
    "nice" "followers" 5 (fun _ => rfl) (fun _ => rfl)
  exact ⟨h.1, h.2.2⟩

/-! ## Helper lemmas about the per-file loop and the fan-out writer -/

/-- Every action in the loop's trace belongs to some file of the list: a
`readFile` at its `enumerate` index, or a `tgUpload` at its index — and an
upload happens only for a file within the size ceiling. -/
theorem ppf_trace_mem (env : Env) :
    ∀ (l : List UFile) (start : Nat) (a : Action),
      a ∈ (processPostFiles env start l).2 →
      ∃ j f, l.get? j = some f ∧
        (a = .readFile (start + j) ∨
         (a = .tgUpload (start + j) ∧ ¬ f.size > mib10)) := by
  intro l
  induction l with
  | nil => intro start a ha; simp [processPostFiles] at ha
  | cons f rest ih =>
    intro start a ha
    rw [processPostFiles] at ha
    by_cases ht : f.content_type ∈ allowed_types_post
    · rw [if_pos ht] at ha
      by_cases hs : f.size > mib10
      · rw [if_pos hs] at ha
        simp only at ha
        rcases List.mem_cons.1 ha with h | h
        · exact ⟨0, f, rfl, Or.inl (by simpa using h)⟩
        · obtain ⟨j, g, hg, hdis⟩ := ih (start + 1) a h
          refine ⟨j + 1, g, by simpa using hg, ?_⟩
          have : start + 1 + j = start + (j + 1) := by omega
          rw [this] at hdis
          exact hdis
      · rw [if_neg hs] at ha
        rcases hu : upload_to_telegram env.tokens (env.pick start)
            (env.http start) f.filename f.content_type with ⟨res, n⟩
        rw [hu] at ha
        cases res with
        | error e =>
          simp only at ha
          rcases List.mem_cons.1 ha with h | h
          · exact ⟨0, f, rfl, Or.inl (by simpa using h)⟩
          · rcases List.mem_singleton.1 h with h
            exact ⟨0, f, rfl, Or.inr ⟨by simpa using h, hs⟩⟩
        | ok info =>
          simp only at ha
          rcases List.mem_cons.1 ha with h | h
          · exact ⟨0, f, rfl, Or.inl (by simpa using h)⟩
          · rcases List.mem_cons.1 h with h | h
            · exact ⟨0, f, rfl, Or.inr ⟨by simpa using h, hs⟩⟩
            · obtain ⟨j, g, hg, hdis⟩ := ih (start + 1) a h
              refine ⟨j + 1, g, by simpa using hg, ?_⟩
              have : start + 1 + j = start + (j + 1) := by omega
              rw [this] at hdis
              exact hdis
    · rw [if_neg ht] at ha
      obtain ⟨j, g, hg, hdis⟩ := ih (start + 1) a ha
      refine ⟨j + 1, g, by simpa using hg, ?_⟩
      have : start + 1 + j = start + (j + 1) := by omega
      rw [this] at hdis
      exact hdis

/-- Every media item produced by the loop comes from a file of the list at
its `enumerate` index, and only from a file within the size ceiling. -/
theorem ppf_ok_mem (env : Env) :
    ∀ (l : List UFile) (start : Nat) (ms : List MediaItem),
      (processPostFiles env start l).1 = .ok ms →
      ∀ m ∈ ms, ∃ j f, l.get? j = some f ∧
        m.order_index = start + j ∧ ¬ f.size > mib10 := by
  intro l
  induction l with
  | nil =>
    intro start ms hms m hm
    simp [processPostFiles] at hms
    subst hms
    simp at hm
  | cons f rest ih =>
    intro start ms hms m hm
    rw [processPostFiles] at hms
    by_cases ht : f.content_type ∈ allowed_types_post
    · rw [if_pos ht] at hms
      by_cases hs : f.size > mib10
      · rw [if_pos hs] at hms
        simp only at hms
        obtain ⟨j, g, hg, h1, h2⟩ := ih (start + 1) ms hms m hm
        refine ⟨j + 1, g, by simpa using hg, ?_, h2⟩
        omega
      · rw [if_neg hs] at hms
        rcases hu : upload_to_telegram env.tokens (env.pick start)
            (env.http start) f.filename f.content_type with ⟨res, n⟩
        rw [hu] at hms
        cases res with
        | error e => simp at hms
        | ok info =>
          simp only at hms
          rcases hrec : (processPostFiles env (start + 1) rest).1 with e | ms'
          · rw [hrec] at hms; simp at hms
          · rw [hrec] at hms
            simp only [Except.ok.injEq] at hms
            subst hms
            rcases List.mem_cons.1 hm with h | h
            · subst h
              exact ⟨0, f, rfl, by simp [mkMediaItem], hs⟩
            · obtain ⟨j, g, hg, h1, h2⟩ := ih (start + 1) ms' hrec m h
              refine ⟨j + 1, g, by simpa using hg, ?_, h2⟩
              omega
    · rw [if_neg ht] at hms
      obtain ⟨j, g, hg, h1, h2⟩ := ih (start + 1) ms hms m hm
      refine ⟨j + 1, g, by simpa using hg, ?_, h2⟩
      omega

/-- On success, every produced media item's `order_index` is at least the
starting `enumerate` index, and the `order_index` values are strictly
increasing along the produced list. -/
theorem ppf_ok_chain (env : Env) :
    ∀ (l : List UFile) (start : Nat) (ms : List MediaItem),
      (processPostFiles env start l).1 = .ok ms →
      (∀ m ∈ ms, start ≤ m.order_index) ∧
        List.Chain' (fun a b : MediaItem => a.order_index < b.order_index)
          ms := by
  intro l
  induction l with
  | nil =>
    intro start ms hms
    simp [processPostFiles] at hms
    subst hms
    simp
  | cons f rest ih =>
    intro start ms hms
    rw [processPostFiles] at hms
    by_cases ht : f.content_type ∈ allowed_types_post
    · rw [if_pos ht] at hms
      by_cases hs : f.size > mib10
      · rw [if_pos hs] at hms
        simp only at hms
        obtain ⟨hlb, hch⟩ := ih (start + 1) ms hms
        exact ⟨fun m hm => le_trans (by omega) (hlb m hm), hch⟩
      · rw [if_neg hs] at hms
        rcases hu : upload_to_telegram env.tokens (env.pick start)
            (env.http start) f.filename f.content_type with ⟨res, n⟩
        rw [hu] at hms
        cases res with
        | error e => simp at hms
        | ok info =>
          simp only at hms
          rcases hrec : (processPostFiles env (start + 1) rest).1 with e | ms'
          · rw [hrec] at hms; simp at hms
          · rw [hrec] at hms
            simp only [Except.ok.injEq] at hms
            subst hms
            obtain ⟨hlb, hch⟩ := ih (start + 1) ms' hrec
            constructor
            · intro m hm
              rcases List.mem_cons.1 hm with h | h
              · subst h; simp [mkMediaItem]
              · exact le_trans (by omega) (hlb m h)
            · refine List.chain'_cons'.2 ⟨?_, hch⟩
              intro m hm
              have hmem : m ∈ ms' := List.mem_of_mem_head? hm
              have := hlb m hmem
              simp [mkMediaItem]
              omega
    · rw [if_neg ht] at hms
      obtain ⟨hlb, hch⟩ := ih (start + 1) ms hms
      exact ⟨fun m hm => le_trans (by omega) (hlb m hm), hch⟩

/-- When every file of the batch fails validation (bad type or oversized),
the loop completes with an empty media array. -/
theorem ppf_all_skip (env : Env) :
    ∀ (l : List UFile) (start : Nat),
      (∀ f ∈ l, f.content_type ∉ allowed_types_post ∨ f.size > mib10) →
      (processPostFiles env start l).1 = .ok [] := by
  intro l
  induction l with
  | nil => intro start _; simp [processPostFiles]
  | cons f rest ih =>
    intro start hall
    rw [processPostFiles]
    rcases hall f (List.mem_cons_self f rest) with ht | hs
    · rw [if_neg ht]
      exact ih (start + 1) fun g hg => hall g (List.mem_cons_of_mem f hg)
    · by_cases ht : f.content_type ∈ allowed_types_post
      · rw [if_pos ht, if_pos hs]
        simpa using ih (start + 1) fun g hg =>
          hall g (List.mem_cons_of_mem f hg)
      · rw [if_neg ht]
        exact ih (start + 1) fun g hg => hall g (List.mem_cons_of_mem f hg)

/-- The only operations in the fan-out writer's trace are the three
intended writes, and a `setPost` there always carries the given document. -/
theorem store_post_data_trace_mem (env : Env) (pid : String)
    (post : PostDoc) (uid : String) (a : Action)
    (ha : a ∈ (store_post_data env pid post uid).2) :
    a = .setPost ("posts/" ++ pid) post ∨
    a = .setDoc ("user_posts/" ++ uid ++ "/" ++ pid) ∨
    a = .pushDoc "timeline" := by
  unfold store_post_data at ha
  by_cases h1 : env.setOk ("posts/" ++ pid) <;>
    by_cases h2 : env.setOk ("user_posts/" ++ uid ++ "/" ++ pid) <;>
    by_cases h3 : env.pushOk "timeline" <;>
    simp [h1, h2, h3] at ha <;> tauto

/-- When the fan-out writer succeeds, its trace is exactly the three writes
in source order. -/
theorem store_post_data_ok_trace (env : Env) (pid : String)
    (post : PostDoc) (uid : String)
    (h : (store_post_data env pid post uid).1 = .ok ()) :
    (store_post_data env pid post uid).2 =
      [.setPost ("posts/" ++ pid) post,
       .setDoc ("user_posts/" ++ uid ++ "/" ++ pid),
       .pushDoc "timeline"] := by
  unfold store_post_data at h ⊢
  by_cases h1 : env.setOk ("posts/" ++ pid) <;>
    by_cases h2 : env.setOk ("user_posts/" ++ uid ++ "/" ++ pid) <;>
    by_cases h3 : env.pushOk "timeline" <;>
    simp [h1, h2, h3] at h ⊢

/-- The loop never uploads a file whose payload exceeds the ceiling. -/
theorem ppf_no_upload_oversized (env : Env) (files : List UFile) (i : Nat)
    (f : UFile) (hf : files.get? i = some f) (hbig : f.size > mib10) :
    Action.tgUpload i ∉ (processPostFiles env 0 files).2 := by
  intro ha
  obtain ⟨j, g, hg, hdis⟩ := ppf_trace_mem env files 0 (.tgUpload i) ha
  rcases hdis with h | ⟨h, hgs⟩
  · exact Action.noConfusion h
  · have hij : i = j := by simpa using Action.tgUpload.inj h
    subst hij
    rw [hf] at hg
    obtain rfl : g = f := by simpa using hg.symm
    exact hgs hbig

/-- The loop's trace never contains a post-document write. -/
theorem ppf_no_setPost (env : Env) (files : List UFile) (start : Nat)
    (p : String) (post : PostDoc) :
    Action.setPost p post ∉ (processPostFiles env start files).2 := by
  intro ha
  obtain ⟨j, g, _, hdis⟩ := ppf_trace_mem env files start (.setPost p post) ha
  rcases hdis with h | ⟨h, _⟩ <;> exact Action.noConfusion h

/-- No media item produced by the loop stems from an oversized file. -/
theorem ppf_ok_no_oversized (env : Env) (files : List UFile) (i : Nat)
    (f : UFile) (ms : List MediaItem)
    (hms : (processPostFiles env 0 files).1 = .ok ms)
    (hf : files.get? i = some f) (hbig : f.size > mib10) :
    ∀ m ∈ ms, m.order_index ≠ i := by
  intro m hm hord
  obtain ⟨j, g, hg, hj, hgs⟩ := ppf_ok_mem env files 0 ms hms m hm
  have hij : i = j := by omega
  subst hij
  rw [hf] at hg
  obtain rfl : g = f := by simpa using hg.symm
  exact hgs hbig

/-- **C2** (counterexample): the claim asserts the 10 MB ceiling holds for
*every* write endpoint that accepts a file, `/upload-story/` included.  It
does not: `upload_story` performs no size check at all (main.py:332-341),
so an 11 MB story payload is read, uploaded to Telegram, written to the
store, and answered with success. -/
theorem story_size_ceiling_counterexample :
    bigFile.size > mib10 ∧
    upload_story env0 "u1" "alice" "pic" bigFile =
      (.ok { story_id := "story-1" },
       [.readFile 0, .tgUpload 0, .setDoc "stories/u1/story-1"]) :=
  ⟨by decide, rfl⟩

/-- **C2** (amended): only `/upload-post/` enforces the 10 MB ceiling, per
file: a file of the batch whose payload exceeds it is skipped after the
payload is read — no Telegram upload is performed for it and no stored
post document contains a media item at its batch index.  `/upload-story/`
has no size check (see the counterexample). -/
theorem size_ceiling_only_in_upload_post (env : Env)
    (uid un pp cap at_ : String) (files : List UFile) (i : Nat) (f : UFile)
    (hf : files.get? i = some f) (hbig : f.size > mib10) :
    Action.tgUpload i ∉ (upload_post env uid un pp cap at_ files).2 ∧
    ∀ p post,
      Action.setPost p post ∈ (upload_post env uid un pp cap at_ files).2 →
      ∀ m ∈ post.media, m.order_index ≠ i := by
  rw [upload_post]
  by_cases he : files.isEmpty
  · simp [he]
  · rw [if_neg he]
    by_cases hlen : files.length > 10
    · simp [hlen]
    · rw [if_neg (by simpa using hlen)]
      rcases hppf : processPostFiles env 0 files with ⟨res, acts⟩
      have hacts2 : (processPostFiles env 0 files).2 = acts := by
        rw [hppf]
      have hres1 : (processPostFiles env 0 files).1 = res := by
        rw [hppf]
      cases res with
      | error e =>
        simp only
        constructor
        · intro ha
          exact ppf_no_upload_oversized env files i f hf hbig
            (hacts2 ▸ ha)
        · intro p post hp
          exact absurd (hacts2 ▸ hp) (ppf_no_setPost env files 0 p post)
      | ok media_array =>
        simp only
        by_cases hme : media_array.isEmpty
        · rw [if_pos hme]
          constructor
          · intro ha
            exact ppf_no_upload_oversized env files i f hf hbig
              (hacts2 ▸ ha)
          · intro p post hp
            exact absurd (hacts2 ▸ hp) (ppf_no_setPost env files 0 p post)
        · rw [if_neg hme]
          rcases hst : store_post_data env env.postId
              { post_id := env.postId, user_id := uid, username := un
                profile_picture := pp, media := media_array, caption := cap
                alt_text := if at_ = "" then "Post by " ++ un else at_
                hashtags := extract_hashtags cap
                mentions := extract_mentions cap } uid with ⟨sres, sacts⟩
          have hsacts : (store_post_data env env.postId
              { post_id := env.postId, user_id := uid, username := un
                profile_picture := pp, media := media_array, caption := cap
                alt_text := if at_ = "" then "Post by " ++ un else at_
                hashtags := extract_hashtags cap
                mentions := extract_mentions cap } uid).2 = sacts := by
            rw [hst]
          have key : ∀ a : Action, a ∈ acts ++ sacts →
              (a = Action.tgUpload i → False) ∧
              (∀ p post, a = Action.setPost p post →
                ∀ m ∈ post.media, m.order_index ≠ i) := by
            intro a ha
            rcases List.mem_append.1 ha with h | h
            · constructor
              · rintro rfl
                exact ppf_no_upload_oversized env files i f hf hbig
                  (hacts2 ▸ h)
              · rintro p post rfl
                exact absurd (hacts2 ▸ h) (ppf_no_setPost env files 0 _ _)
            · have := store_post_data_trace_mem env env.postId _ uid a
                (hsacts ▸ h)
              constructor
              · rintro rfl
                rcases this with h' | h' | h' <;> exact Action.noConfusion h'
              · rintro p post rfl
                rcases this with h' | h' | h'
                · obtain ⟨-, hpost⟩ := Action.setPost.inj h'
                  subst hpost
                  simp only
                  exact ppf_ok_no_oversized env files i f media_array
                    (hres1 ▸ rfl) hf hbig
                · exact Action.noConfusion h'
                · exact Action.noConfusion h'
          cases sres with
          | error e =>
            simp only
            constructor
            · intro ha
              exact ((key _ ha).1) rfl
            · intro p post hp m hm
              exact (key _ hp).2 p post rfl m hm
          | ok u =>
            simp only
            constructor
            · intro ha
              exact ((key _ ha).1) rfl
            · intro p post hp m hm
              exact (key _ hp).2 p post rfl m hm

/-- Witness for the amended C2: a two-file batch whose second file is 11 MB
— it is not uploaded and the stored post has no media item at index 1. -/
theorem size_ceiling_only_in_upload_post_witness :
    Action.tgUpload 1 ∉
      (upload_post env0 "u1" "alice" "pic" "" "" [okFile, bigFile]).2 ∧
    ∀ p post,
      Action.setPost p post ∈
        (upload_post env0 "u1" "alice" "pic" "" "" [okFile, bigFile]).2 →
      ∀ m ∈ post.media, m.order_index ≠ 1 :=
  size_ceiling_only_in_upload_post env0 "u1" "alice" "pic" "" ""
    [okFile, bigFile] 1 bigFile rfl (by decide)

/-- Every exception mapped by `upload_post`'s `except` clauses yields an
error response, never the success payload. -/
theorem postExcept_ne_ok (e : PyErr) (r : PostResp) :
    postExcept e ≠ .ok r := by
  cases e <;> simp [postExcept]

/-- **C8**: every post document stored by `/upload-post/` on a success
response has a non-empty `media` list with strictly increasing
`order_index` values (in list order, also across skipped files), and the
response's `media_count` is its length; a request whose files all fail
validation (bad type or oversized) never yields a success response — the
`HTTPException` of main.py:243 aborts it before any store write. -/
theorem upload_post_media_invariant (env : Env)
    (uid un pp cap at_ : String) (files : List UFile) :
    (∀ r, (upload_post env uid un pp cap at_ files).1 = .ok r →
      ∃ post, Action.setPost ("posts/" ++ env.postId) post ∈
          (upload_post env uid un pp cap at_ files).2 ∧
        post.media ≠ [] ∧
        List.Chain' (fun a b : MediaItem => a.order_index < b.order_index)
          post.media ∧
        r.media_count = post.media.length) ∧
    ((∀ f ∈ files, f.content_type ∉ allowed_types_post ∨ f.size > mib10) →
      ∀ r, (upload_post env uid un pp cap at_ files).1 ≠ .ok r) := by
  rw [upload_post]
  by_cases he : files.isEmpty
  · rw [if_pos he]
    exact ⟨fun r hr => by simp at hr, fun _ r hr => by simp at hr⟩
  · rw [if_neg he]
    by_cases hlen : files.length > 10
    · rw [if_pos hlen]
      exact ⟨fun r hr => by simp at hr, fun _ r hr => by simp at hr⟩
    · rw [if_neg hlen]
      rcases hppf : processPostFiles env 0 files with ⟨res, acts⟩
      have hres1 : (processPostFiles env 0 files).1 = res := by rw [hppf]
      cases res with
      | error e =>
        constructor
        · intro r hr
          exact absurd hr (postExcept_ne_ok e r)
        · intro _ r hr
          exact absurd hr (postExcept_ne_ok e r)
      | ok media_array =>
        simp only
        by_cases hme : media_array.isEmpty
        · rw [if_pos hme]
          constructor
          · intro r hr
            exact absurd hr
              (postExcept_ne_ok (.httpExc 400 "No valid files to upload") r)
          · intro _ r hr
            exact absurd hr
              (postExcept_ne_ok (.httpExc 400 "No valid files to upload") r)
        · rw [if_neg hme]
          rcases hst : store_post_data env env.postId
              { post_id := env.postId, user_id := uid, username := un
                profile_picture := pp, media := media_array, caption := cap
                alt_text := if at_ = "" then "Post by " ++ un else at_
                hashtags := extract_hashtags cap
                mentions := extract_mentions cap } uid with ⟨sres, sacts⟩
          constructor
          · intro r hr
            cases sres with
            | error e => exact absurd hr (postExcept_ne_ok e r)
            | ok u =>
              cases u
              simp only [HResult.ok.injEq] at hr
              have hsacts : sacts =
                  [Action.setPost ("posts/" ++ env.postId)
                     { post_id := env.postId, user_id := uid, username := un
                       profile_picture := pp, media := media_array
                       caption := cap
                       alt_text := if at_ = "" then "Post by " ++ un else at_
                       hashtags := extract_hashtags cap
                       mentions := extract_mentions cap },
                   Action.setDoc ("user_posts/" ++ uid ++ "/" ++ env.postId),
                   Action.pushDoc "timeline"] := by
                have := store_post_data_ok_trace env env.postId
                  { post_id := env.postId, user_id := uid, username := un
                    profile_picture := pp, media := media_array
                    caption := cap
                    alt_text := if at_ = "" then "Post by " ++ un else at_
                    hashtags := extract_hashtags cap
                    mentions := extract_mentions cap } uid (by rw [hst])
                rw [hst] at this
                exact this
              refine ⟨{ post_id := env.postId, user_id := uid
                        username := un, profile_picture := pp
                        media := media_array, caption := cap
                        alt_text := if at_ = "" then "Post by " ++ un else at_
                        hashtags := extract_hashtags cap
                        mentions := extract_mentions cap },
                      ?_, ?_, ?_, ?_⟩
              · refine List.mem_append_right acts ?_
                rw [hsacts]
                exact List.mem_cons_self _ _
              · simpa using (List.isEmpty_iff).not.2
                  (by simpa [List.isEmpty_iff] using hme)
              · exact (ppf_ok_chain env files 0 media_array hres1).2
              · rw [← hr]
          · intro hall r hr
            have h0 : (Except.ok media_array :
                Except PyErr (List MediaItem)) = Except.ok [] := by
              rw [← hres1]
              exact ppf_all_skip env files 0 hall
            have h1 : media_array = [] := by simpa using h0
            rw [h1] at hme
            simp at hme

/-- Witness for C8: a one-file success stores a singleton, strictly
ordered media list; a one-oversized-file batch never answers success. -/
theorem upload_post_media_invariant_witness :
    (∃ post, Action.setPost ("posts/" ++ env0.postId) post ∈
        (upload_post env0 "u1" "alice" "pic" "" "" [okFile]).2 ∧
      post.media ≠ [] ∧
      List.Chain' (fun a b : MediaItem => a.order_index < b.order_index)
        post.media ∧
      (1 : Nat) = post.media.length) ∧
    (upload_post env0 "u1" "alice" "pic" "" "" [bigFile]).1 ≠
      .ok { post_id := "post-1", media_count := 0 } :=
  ⟨(upload_post_media_invariant env0 "u1" "alice" "pic" "" "" [okFile]).1
      { post_id := "post-1", media_count := 1 } rfl,
   (upload_post_media_invariant env0 "u1" "alice" "pic" "" "" [bigFile]).2
      (by decide) { post_id := "post-1", media_count := 0 }⟩

/-- **C1**: a 3-file batch whose second file fails the content-type check
is not aborted: the handler logs-and-continues past that file
(main.py:209-211), uploads the other two, and answers success with exactly
two media records — the stored post's media list holds exactly the items
built for files 0 and 2. -/
theorem upload_post_skips_invalid_file (env : Env)
    (uid un pp cap at_ : String) (f1 f2 f3 : UFile)
    (h1t : f1.content_type ∈ allowed_types_post) (h1s : ¬ f1.size > mib10)
    (h2t : f2.content_type ∉ allowed_types_post)
    (h3t : f3.content_type ∈ allowed_types_post) (h3s : ¬ f3.size > mib10)
    (u0 u2 : TgFile) (n0 n2 : Nat)
    (hup0 : upload_to_telegram env.tokens (env.pick 0) (env.http 0)
      f1.filename f1.content_type = (.ok u0, n0))
    (hup2 : upload_to_telegram env.tokens (env.pick 2) (env.http 2)
      f3.filename f3.content_type = (.ok u2, n2))
    (hset : ∀ p, env.setOk p = true) (hpush : ∀ p, env.pushOk p = true) :
    (upload_post env uid un pp cap at_ [f1, f2, f3]).1 =
      .ok { post_id := env.postId, media_count := 2 } ∧
    ∃ post, Action.setPost ("posts/" ++ env.postId) post ∈
        (upload_post env uid un pp cap at_ [f1, f2, f3]).2 ∧
      post.media = [mkMediaItem env 0 f1 u0, mkMediaItem env 2 f3 u2] := by
  have step3 : processPostFiles env 2 [f3] =
      (.ok [mkMediaItem env 2 f3 u2], [.readFile 2, .tgUpload 2]) := by
    rw [processPostFiles, if_pos h3t, if_neg h3s, hup2]
    simp [processPostFiles]
  have step2 : processPostFiles env 1 [f2, f3] = processPostFiles env 2 [f3] := by
    rw [processPostFiles, if_neg h2t]
  have step1 : processPostFiles env 0 [f1, f2, f3] =
      (.ok [mkMediaItem env 0 f1 u0, mkMediaItem env 2 f3 u2],
       [.readFile 0, .tgUpload 0, .readFile 2, .tgUpload 2]) := by
    rw [processPostFiles, if_pos h1t, if_neg h1s, hup0]
    simp only [Nat.reduceAdd, step2, step3]
  constructor
  · simp [upload_post, step1, store_post_data, hset, hpush]
  · refine ⟨{ post_id := env.postId, user_id := uid, username := un
              profile_picture := pp
              media := [mkMediaItem env 0 f1 u0, mkMediaItem env 2 f3 u2]
              caption := cap
              alt_text := if at_ = "" then "Post by " ++ un else at_
              hashtags := extract_hashtags cap
              mentions := extract_mentions cap }, ?_, rfl⟩
    simp [upload_post, step1, store_post_data, hset, hpush]

/-- Witness for C1: the middle file is a `text/plain` document; the
response reports two media items and the stored post lists indices 0, 2. -/
theorem upload_post_skips_invalid_file_witness :
    (upload_post env0 "u1" "alice" "pic" "" ""
        [okFile, badTypeFile, okFile]).1 =
      .ok { post_id := "post-1", media_count := 2 } ∧
    ∃ post, Action.setPost ("posts/" ++ env0.postId) post ∈
        (upload_post env0 "u1" "alice" "pic" "" ""
          [okFile, badTypeFile, okFile]).2 ∧
      post.media =
        [mkMediaItem env0 0 okFile { file_unique_id := "fu-1", file_id := "fi-1" },
         mkMediaItem env0 2 okFile { file_unique_id := "fu-1", file_id := "fi-1" }] :=
  upload_post_skips_invalid_file env0 "u1" "alice" "pic" "" ""
    okFile badTypeFile okFile
    (by decide) (by decide) (by decide) (by decide) (by decide)
    { file_unique_id := "fu-1", file_id := "fi-1" }
    { file_unique_id := "fu-1", file_id := "fi-1" } 1 1
    rfl rfl (fun _ => rfl) (fun _ => rfl)

/-- **C9**: `upload_to_telegram` fails with `TelegramUploadError` when no
bot credential is configured (without any request being made), on a
transport error, when the response is not `ok`, and when the `ok` response
carries no photo/document/video object; and in every case it performs at
most one HTTP request — there is no retry. -/
theorem upload_to_telegram_failure_modes (tokens : List String)
    (pick : Nat) (fn ct : String) :
    (((tokens.filter (fun t => pyStrip t ≠ "")).map pyStrip).isEmpty = true →
      ∀ o : HttpOutcome, upload_to_telegram tokens pick o fn ct =
        (.error (.tgError "No Telegram bot tokens available"), 0)) ∧
    (((tokens.filter (fun t => pyStrip t ≠ "")).map pyStrip).isEmpty = false →
      upload_to_telegram tokens pick .transportError fn ct =
        (.error (.tgError "Network error"), 1)) ∧
    (∀ r : TgResponse,
      ((tokens.filter (fun t => pyStrip t ≠ "")).map pyStrip).isEmpty = false →
      r.ok = false →
      upload_to_telegram tokens pick (.response r) fn ct =
        (.error (.tgError "Telegram API error"), 1)) ∧
    (∀ r : TgResponse,
      ((tokens.filter (fun t => pyStrip t ≠ "")).map pyStrip).isEmpty = false →
      r.ok = true → r.result.photo = none → r.result.document = none →
      r.result.video = none →
      upload_to_telegram tokens pick (.response r) fn ct =
        (.error (.tgError "No file found in Telegram response"), 1)) ∧
    (∀ o : HttpOutcome, (upload_to_telegram tokens pick o fn ct).2 ≤ 1) := by
  have hgNe : ((tokens.filter (fun t => pyStrip t ≠ "")).map pyStrip).isEmpty
        = false →
      get_random_bot_token tokens pick =
        .ok (((tokens.filter (fun t => pyStrip t ≠ "")).map pyStrip).getD
          (pick % ((tokens.filter
            (fun t => pyStrip t ≠ "")).map pyStrip).length) "") := by
    intro h
    simp only [get_random_bot_token]
    rw [if_neg (by rw [h]; decide)]
  refine ⟨?_, ?_, ?_, ?_, ?_⟩
  · intro h o
    have hg : get_random_bot_token tokens pick =
        .error (.tgError "No Telegram bot tokens available") := by
      simp only [get_random_bot_token]
      rw [if_pos h]
    simp only [upload_to_telegram, hg]
  · intro h
    simp only [upload_to_telegram, hgNe h]
  · intro r h hok
    simp only [upload_to_telegram, hgNe h]
    simp [hok]
  · intro r h hok hp hd hv
    simp only [upload_to_telegram, hgNe h]
    simp [hok, hp, hd, hv]
  · intro o
    unfold upload_to_telegram
    repeat' split
    all_goals first
      | exact Nat.le_refl 1
      | exact Nat.zero_le 1

/-- Witness for C9: each failure mode at a concrete input, and the request
bound on a successful call. -/
theorem upload_to_telegram_failure_modes_witness :
    upload_to_telegram ["", " "] 0 .transportError "f.jpg" "image/jpeg" =
      (.error (.tgError "No Telegram bot tokens available"), 0) ∧
    upload_to_telegram ["tok"] 0 .transportError "f.jpg" "image/jpeg" =
      (.error (.tgError "Network error"), 1) ∧
    upload_to_telegram ["tok"] 0
        (.response { ok := false
                     result := { photo := none, document := none
                                 video := none } }) "f.jpg" "image/jpeg" =
      (.error (.tgError "Telegram API error"), 1) ∧
    upload_to_telegram ["tok"] 0
        (.response { ok := true
                     result := { photo := none, document := none
                                 video := none } }) "f.jpg" "image/jpeg" =
      (.error (.tgError "No file found in Telegram response"), 1) ∧
    (upload_to_telegram ["tok"] 0 (.response goodResp)
        "f.jpg" "image/jpeg").2 ≤ 1 := by
  have h1 := upload_to_telegram_failure_modes ["", " "] 0 "f.jpg" "image/jpeg"
  have h2 := upload_to_telegram_failure_modes ["tok"] 0 "f.jpg" "image/jpeg"
  exact ⟨h1.1 (by decide) .transportError,
         h2.2.1 (by decide),
         h2.2.2.1 _ (by decide) rfl,
         h2.2.2.2.1 _ (by decide) rfl rfl rfl rfl,
         h2.2.2.2.2 (.response goodResp)⟩

end InstaClone
